import Mathlib

/-
  Verification development for the Verdifi green-fintech dashboard.

  Shallow embedding of:
  - the ESG composite scorer and financial-impact model
    (src/src/esgFinancialModel.js, class ESGFinancialModel);
  - the security event aggregator (same file, class SecurityMonitor);
  - the per-connection sampling/aggregation scheduler
    (src/dashboard/server.js, the socket connection handler).

  JavaScript numbers are modelled as rationals; the display-only
  `toFixed(2)` string formatting of the financial-impact fields is not
  modelled (fields hold the exact pre-formatting values).  `Math.round`
  is modelled exactly (round half toward positive infinity).
-/

/-- JavaScript Math.round: nearest integer, halves rounded toward +inf. -/
def mathRound (q : ℚ) : ℤ := ⌊q + 1/2⌋

/-- The nine-field ESG metrics vector taken by calculateESGScore
(esgFinancialModel.js lines 29-39, with the JS default of 0 for a missing
field made explicit by the caller). -/
structure MetricsVector where
  carbonFootprint : ℚ
  renewableEnergy : ℚ
  wasteReduction : ℚ
  employeeSatisfaction : ℚ
  diversity : ℚ
  communityImpact : ℚ
  boardIndependence : ℚ
  transparency : ℚ
  ethicsCompliance : ℚ
deriving DecidableEq

/-- carbonScore = Math.max(0, 15 - carbonFootprint / 100)  (line 42). -/
def carbonScore (m : MetricsVector) : ℚ := max 0 (15 - m.carbonFootprint / 100)

/-- renewableScore = (renewableEnergy / 100) * 15  (line 43). -/
def renewableScore (m : MetricsVector) : ℚ := m.renewableEnergy / 100 * 15

/-- wasteScore = (wasteReduction / 100) * 10  (line 44). -/
def wasteScore (m : MetricsVector) : ℚ := m.wasteReduction / 100 * 10

/-- environmentalScore = carbonScore + renewableScore + wasteScore  (line 45). -/
def environmentalScore (m : MetricsVector) : ℚ :=
  carbonScore m + renewableScore m + wasteScore m

/-- employeeScore = (employeeSatisfaction / 100) * 10  (line 48). -/
def employeeScore (m : MetricsVector) : ℚ := m.employeeSatisfaction / 100 * 10

/-- diversityScore = (diversity / 100) * 10  (line 49). -/
def diversityScore (m : MetricsVector) : ℚ := m.diversity / 100 * 10

/-- communityScore = (communityImpact / 100) * 10  (line 50). -/
def communityScore (m : MetricsVector) : ℚ := m.communityImpact / 100 * 10

/-- socialScore = employeeScore + diversityScore + communityScore  (line 51). -/
def socialScore (m : MetricsVector) : ℚ :=
  employeeScore m + diversityScore m + communityScore m

/-- boardScore = (boardIndependence / 100) * 10  (line 54). -/
def boardScore (m : MetricsVector) : ℚ := m.boardIndependence / 100 * 10

/-- transparencyScore = (transparency / 100) * 10  (line 55). -/
def transparencyScore (m : MetricsVector) : ℚ := m.transparency / 100 * 10

/-- ethicsScore = (ethicsCompliance / 100) * 10  (line 56). -/
def ethicsScore (m : MetricsVector) : ℚ := m.ethicsCompliance / 100 * 10

/-- governanceScore = boardScore + transparencyScore + ethicsScore  (line 57). -/
def governanceScore (m : MetricsVector) : ℚ :=
  boardScore m + transparencyScore m + ethicsScore m

/-- totalScore = environmentalScore + socialScore + governanceScore  (line 59). -/
def totalScore (m : MetricsVector) : ℚ :=
  environmentalScore m + socialScore m + governanceScore m

/-- The per-sub-metric rounded breakdown returned by calculateESGScore
(lines 66-82). -/
structure ESGBreakdown where
  carbonFootprint : ℤ
  renewableEnergy : ℤ
  wasteReduction : ℤ
  employeeSatisfaction : ℤ
  diversity : ℤ
  communityImpact : ℤ
  boardIndependence : ℤ
  transparency : ℤ
  ethicsCompliance : ℤ
deriving DecidableEq

/-- The object returned by calculateESGScore (lines 61-83). -/
structure ESGScore where
  overall : ℤ
  environmental : ℤ
  social : ℤ
  governance : ℤ
  breakdown : ESGBreakdown
deriving DecidableEq

/-- calculateESGScore (lines 28-84).  The JS expression
`environmentalScore || 1` evaluates to 1 exactly when the score is 0
(falsy), which is modelled by the explicit if-then-else. -/
def calculateESGScore (m : MetricsVector) : ESGScore :=
  { overall := mathRound (totalScore m)
    environmental :=
      mathRound (environmentalScore m *
        (40 / (if environmentalScore m = 0 then 1 else environmentalScore m)))
    social :=
      mathRound (socialScore m *
        (30 / (if socialScore m = 0 then 1 else socialScore m)))
    governance :=
      mathRound (governanceScore m *
        (30 / (if governanceScore m = 0 then 1 else governanceScore m)))
    breakdown :=
      { carbonFootprint := mathRound (carbonScore m)
        renewableEnergy := mathRound (renewableScore m)
        wasteReduction := mathRound (wasteScore m)
        employeeSatisfaction := mathRound (employeeScore m)
        diversity := mathRound (diversityScore m)
        communityImpact := mathRound (communityScore m)
        boardIndependence := mathRound (boardScore m)
        transparency := mathRound (transparencyScore m)
        ethicsCompliance := mathRound (ethicsScore m) } }

/-- The object returned by calculateFinancialImpact (lines 117-132).
The nested `metrics` sub-object is flattened into the last four fields.
Each field holds the exact rational value the JS formats with toFixed(2);
percentage fields (esgPremium, adjustedReturn, adjustedCostOfCapital,
revenueImpact, returnImprovement, capitalCostReduction) hold the value
already multiplied by 100 as in the JS return expression. -/
structure FinancialImpact where
  esgPremium : ℚ
  adjustedRevenue : ℚ
  carbonCost : ℚ
  potentialSavings : ℚ
  adjustedReturn : ℚ
  adjustedCostOfCapital : ℚ
  valuationMultiple : ℚ
  enterpriseValue : ℚ
  revenueImpact : ℚ
  costSavings : ℚ
  returnImprovement : ℚ
  capitalCostReduction : ℚ
deriving DecidableEq

/-- calculateFinancialImpact (lines 93-133).  Note: the source performs no
validation of its arguments; the function is total.  Division by a zero
`revenue` in revenueImpact follows the rational-number convention x/0 = 0
(the JS would produce NaN there). -/
def calculateFinancialImpact (esgScore revenue carbonEmissions : ℚ) :
    FinancialImpact :=
  let esgPremium := esgScore / 100 * (15/100)
  let adjustedRevenue := revenue * (1 + esgPremium)
  let carbonPricePerTon : ℚ := 50
  let carbonCost := carbonEmissions * carbonPricePerTon
  let potentialSavings := carbonEmissions * carbonPricePerTon * (3/10)
  let baseReturn : ℚ := 8/100
  let esgRiskAdjustment := esgScore / 100 * (3/100)
  let adjustedReturn := baseReturn + esgRiskAdjustment
  let baseCostOfCapital : ℚ := 10/100
  let esgCostReduction := esgScore / 100 * (2/100)
  let adjustedCostOfCapital := baseCostOfCapital - esgCostReduction
  let valuationMultiple := 10 + esgScore / 100 * 2
  let enterpriseValue := adjustedRevenue * valuationMultiple
  { esgPremium := esgPremium * 100
    adjustedRevenue := adjustedRevenue
    carbonCost := carbonCost
    potentialSavings := potentialSavings
    adjustedReturn := adjustedReturn * 100
    adjustedCostOfCapital := adjustedCostOfCapital * 100
    valuationMultiple := valuationMultiple
    enterpriseValue := enterpriseValue
    revenueImpact := (adjustedRevenue - revenue) / revenue * 100
    costSavings := potentialSavings
    returnImprovement := esgRiskAdjustment * 100
    capitalCostReduction := esgCostReduction * 100 }

/-- The all-zero metrics vector. -/
def zeroMetrics : MetricsVector := ⟨0, 0, 0, 0, 0, 0, 0, 0, 0⟩

/-- The all-100 metrics vector. -/
def fullMetrics : MetricsVector := ⟨100, 100, 100, 100, 100, 100, 100, 100, 100⟩

/-- Event severities; the same four-valued scale is used for the monitor's
overall threat level (both are strings in the JS source). -/
inductive Severity where
  | low
  | medium
  | high
  | critical
deriving DecidableEq

/-- calculateThreatLevel (esgFinancialModel.js, SecurityMonitor lines
435-443): numeric level attached to each event. -/
def calculateThreatLevel (s : Severity) : Nat :=
  match s with
  | .low => 1
  | .medium => 2
  | .high => 3
  | .critical => 4

/-- A logged security event (SecurityMonitor.logEvent lines 336-343).
The JS `details` object is modelled as an opaque string. -/
structure SEvent where
  id : Nat
  timestamp : Nat
  type : String
  severity : Severity
  details : String
  threatLevel : Nat
deriving DecidableEq

/-- this.maxEvents = 1000 (SecurityMonitor constructor, line 326). -/
def maxEvents : Nat := 1000

/-- JavaScript Array.prototype.slice(-n): the last n elements (the whole
list when it is shorter than n). -/
def lastN (n : Nat) (l : List α) : List α := l.drop (l.length - n)

/-- The filter predicate of updateThreatLevel (lines 450-452):
severity is high or critical. -/
def isHighSeverity (e : SEvent) : Bool :=
  match e.severity with
  | .high => true
  | .critical => true
  | _ => false

/-- SecurityMonitor.updateThreatLevel (lines 448-463) as a function of the
event log: classify by the count of high/critical events among the most
recent 50. -/
def updateThreatLevel (events : List SEvent) : Severity :=
  let recentEvents := lastN 50 events
  let highSeverityCount := (recentEvents.filter isHighSeverity).length
  if highSeverityCount > 5 then .critical
  else if highSeverityCount > 2 then .high
  else if highSeverityCount > 0 then .medium
  else .low

/-- The SecurityMonitor state that the log/threat claims concern
(constructor lines 320-327; connectionAttempts, suspiciousActivity and
startTime play no role in the claims about logEvent). -/
structure SecurityMonitor where
  securityEvents : List SEvent
  threatLevel : Severity
deriving DecidableEq

/-- A fresh monitor: empty log, threat level low (constructor). -/
def initMonitor : SecurityMonitor := ⟨[], .low⟩

/-- The event record built at the top of logEvent (lines 336-343):
its id is the current log length plus one. -/
def mkEvent (m : SecurityMonitor) (type : String) (severity : Severity)
    (ts : Nat) (details : String) : SEvent :=
  { id := m.securityEvents.length + 1
    timestamp := ts
    type := type
    severity := severity
    details := details
    threatLevel := calculateThreatLevel severity }

/-- SecurityMonitor.logEvent (lines 335-356): push the new event, evict the
oldest entry if the log now exceeds maxEvents, then recompute the overall
threat level.  The Date.now() timestamp is an explicit parameter. -/
def logEvent (m : SecurityMonitor) (type : String) (severity : Severity)
    (ts : Nat) (details : String) : SecurityMonitor :=
  let event := mkEvent m type severity ts details
  let pushed := m.securityEvents ++ [event]
  let trimmed := if pushed.length > maxEvents then pushed.drop 1 else pushed
  { securityEvents := trimmed, threatLevel := updateThreatLevel trimmed }

/-- One logEvent call's inputs (type, severity, timestamp, details). -/
structure LogReq where
  type : String
  severity : Severity
  ts : Nat
  details : String
deriving DecidableEq

/-- Sequentially perform a list of logEvent calls. -/
def logMany (m : SecurityMonitor) : List LogReq → SecurityMonitor
  | [] => m
  | r :: rs => logMany (logEvent m r.type r.severity r.ts r.details) rs

/-- The event records as they are constructed during a run of logMany
(each carries the id assigned from the log length at its own call). -/
def loggedRecords (m : SecurityMonitor) : List LogReq → List SEvent
  | [] => []
  | r :: rs =>
      mkEvent m r.type r.severity r.ts r.details ::
        loggedRecords (logEvent m r.type r.severity r.ts r.details) rs

/-- A fixed logEvent request, used for concrete runs. -/
def stdReq : LogReq := ⟨"connection", Severity.low, 0, ""⟩

/-- The monitor after n identical logEvent calls on a fresh instance. -/
def logN (n : Nat) : SecurityMonitor := logMany initMonitor (List.replicate n stdReq)

/-- The threat-level ladder exactly as the specification words it, for
comparison with the source's updateThreatLevel: the high/critical count in
the window maps to a level (0 gives low, 1-2 medium, 3-5 high, more than 5
critical). -/
def specThreatLadder (c : Nat) : Severity :=
  if c = 0 then .low
  else if c ≤ 2 then .medium
  else if c ≤ 5 then .high
  else .critical

/-- One cycle's sampler outcome: some q is a successful sample carrying the
emission quantity result.carbonEmission (with the JS fallback value 0 for a
missing field already applied), none is a cycle in which the sampler
raised. -/
def CycleResult : Type := Option ℚ

/-- The per-session accumulator state of the scheduler
(server.js: carbonAccumulator, line 170, and socket.sampleCount,
lines 254-255). -/
structure SessState where
  carbonAccumulator : ℚ
  sampleCount : Nat
deriving DecidableEq

/-- Events pushed to the observer by one measurement cycle.  The
measurement payload is reduced to the emission quantity (its other fields
are raw sampler data outside the claims); errorOut is the error payload of
the catch branch. -/
inductive SessOut where
  | measurement (q : ℚ)
  | esgUpdate (score : ESGScore) (impact : FinancialImpact) (carbonAccumulated : ℚ)
  | errorOut
deriving DecidableEq

/-- Recognizer for the combined esgUpdate push. -/
def isEsgUpdate : SessOut → Bool
  | .esgUpdate _ _ _ => true
  | _ => false

/-- The fixed sample revenue used in the periodic update (line 272). -/
def sessionRevenue : ℚ := 1000000

/-- The metrics vector assembled for the periodic ESG update
(lines 282-292): carbonFootprint scaled from the accumulated tons and
capped at 1000, renewable share from the energy info, the other seven
fields fixed constants. -/
def esgMetricsOf (renewablePct carbonTons : ℚ) : MetricsVector :=
  { carbonFootprint := min 1000 (carbonTons * 10000)
    renewableEnergy := renewablePct
    wasteReduction := 75
    employeeSatisfaction := 85
    diversity := 60
    communityImpact := 70
    boardIndependence := 80
    transparency := 75
    ethicsCompliance := 85 }

/-- measureOnce (server.js lines 243-313).  On success: accumulate the
emission, bump the sample counter, emit the measurement, and when the new
counter is a multiple of 5 and the accumulator is positive
(line 270: sampleCount % 5 === 0 && carbonAccumulator > 0; the counter is
at least 1 here so its truthiness test always passes) also emit the
combined esgUpdate computed from the accumulated emission (lines 272-305).
On sampler failure: emit only the error payload and leave the state
unchanged (lines 310-312). -/
def measureOnce (renewablePct : ℚ) (st : SessState) (res : CycleResult) :
    SessState × List SessOut :=
  match res with
  | none => (st, [SessOut.errorOut])
  | some q =>
    let acc := st.carbonAccumulator + q
    let cnt := st.sampleCount + 1
    if cnt % 5 = 0 ∧ 0 < acc then
      let carbonTons := max (1/1000) (acc / 1000000)
      let esgScore := calculateESGScore (esgMetricsOf renewablePct carbonTons)
      let financialImpact :=
        calculateFinancialImpact (esgScore.overall : ℚ) sessionRevenue carbonTons
      (⟨acc, cnt⟩, [SessOut.measurement q, SessOut.esgUpdate esgScore financialImpact acc])
    else
      (⟨acc, cnt⟩, [SessOut.measurement q])

/-- A session's run over a sequence of measurement cycles: the final
accumulator state and the concatenated observer events. -/
def runSession (renewablePct : ℚ) (st : SessState) :
    List CycleResult → SessState × List SessOut
  | [] => (st, [])
  | c :: cs =>
    let r := measureOnce renewablePct st c
    let rest := runSession renewablePct r.1 cs
    (rest.1, r.2 ++ rest.2)

/-- The inbound signals of the session lifecycle plus the scheduler tick at
which the loop, when live, runs one measurement cycle
(server.js lines 315-327). -/
inductive Signal where
  | start
  | stop
  | disconnect
  | tick
deriving DecidableEq

/-- The lifecycle flags of one connection (lines 240-241). -/
structure LoopState where
  isClosed : Bool
  loopActive : Bool
deriving DecidableEq

/-- Flags at connect time: not closed, loop not running. -/
def initLoop : LoopState := ⟨false, false⟩

/-- One lifecycle step.  start is a no-op when the loop is already active
(line 316) and otherwise marks it active; stop and disconnect set isClosed
(lines 326-327) and never clear it (loopActive is never reset).  A tick
runs one measurement cycle, emitting a measurement to the observer,
exactly when the loop is active and not closed (the while condition of
line 318); the returned Bool records whether a measurement event was
emitted. -/
def loopStep (st : LoopState) (s : Signal) : LoopState × Bool :=
  match s with
  | .start => if st.loopActive then (st, false) else ({ st with loopActive := true }, false)
  | .stop => ({ st with isClosed := true }, false)
  | .disconnect => ({ st with isClosed := true }, false)
  | .tick => if st.loopActive && !st.isClosed then (st, true) else (st, false)

/-- Run the lifecycle over a list of signals, counting emitted measurement
events. -/
def runLoop (st : LoopState) : List Signal → LoopState × Nat
  | [] => (st, 0)
  | s :: sigs =>
    let r := loopStep st s
    let rest := runLoop r.1 sigs
    (rest.1, (if r.2 then 1 else 0) + rest.2)

/-- Projection of a successful cycle: the state is updated to the
accumulated emission and the bumped counter, in either branch of the
periodic-update test. -/
theorem measureOnce_fst_some (rp : ℚ) (st : SessState) (q : ℚ) :
    (measureOnce rp st (some q)).1 = ⟨st.carbonAccumulator + q, st.sampleCount + 1⟩ := by
  unfold measureOnce
  dsimp only
  split <;> rfl

/-- Characterization of the session state after a run: the accumulator is
the initial value plus the sum of the successful emissions, the counter the
initial value plus the number of successes. -/
theorem runSession_fst (cycles : List CycleResult) (rp : ℚ) (st : SessState) :
    (runSession rp st cycles).1 =
      ⟨st.carbonAccumulator + (cycles.filterMap id).sum,
        st.sampleCount + (cycles.filterMap id).length⟩ := by
  induction cycles generalizing st with
  | nil => simp [runSession]
  | cons c cs ih =>
    cases c with
    | none => simp [runSession, measureOnce, ih]
    | some q =>
      simp only [runSession, measureOnce_fst_some, ih, List.filterMap_cons, id,
        List.sum_cons, List.length_cons, SessState.mk.injEq]
      exact ⟨by ring, by omega⟩

/-- A closed session stays closed through any signal, and a step taken
while closed emits no measurement. -/
theorem loopStep_closed (st : LoopState) (s : Signal) (h : st.isClosed = true) :
    (loopStep st s).1.isClosed = true ∧ (loopStep st s).2 = false := by
  cases s <;> simp [loopStep, h]
  split <;> simp [h]

/-- A run from a closed state emits no measurements and ends closed. -/
theorem runLoop_closed (sigs : List Signal) (st : LoopState) (h : st.isClosed = true) :
    (runLoop st sigs).2 = 0 ∧ (runLoop st sigs).1.isClosed = true := by
  induction sigs generalizing st with
  | nil => exact ⟨rfl, h⟩
  | cons s sigs ih =>
    have hc := loopStep_closed st s h
    have hr := ih _ hc.1
    simp [runLoop, hc.2, hr.1, hr.2]

/-- Running a concatenation of signal lists reaches the state of the
composed runs. -/
theorem runLoop_append_fst (l1 l2 : List Signal) (st : LoopState) :
    (runLoop st (l1 ++ l2)).1 = (runLoop (runLoop st l1).1 l2).1 := by
  induction l1 generalizing st with
  | nil => simp [runLoop]
  | cons s l1 ih => simp [runLoop, ih]

/-- The stop signal closes the session. -/
theorem runLoop_stop_closed (st : LoopState) :
    (runLoop st [Signal.stop]).1.isClosed = true := rfl

/-- The disconnect signal closes the session. -/
theorem runLoop_disconnect_closed (st : LoopState) :
    (runLoop st [Signal.disconnect]).1.isClosed = true := rfl

/-- C1: over any sequence of measurement cycles from a fresh session, the
cumulative emission accumulator equals the exact sum of the successful
cycles' emission quantities and the sample counter equals their number;
a cycle in which the sampler raises leaves the state unchanged and emits
only the error payload (the failed sample is skipped, never retried). -/
theorem C1_cumulative_emission_exact_sum :
    (∀ (rp : ℚ) (cycles : List CycleResult),
      (runSession rp ⟨0, 0⟩ cycles).1 =
        ⟨(cycles.filterMap id).sum, (cycles.filterMap id).length⟩) ∧
    (∀ (rp : ℚ) (st : SessState), measureOnce rp st none = (st, [SessOut.errorOut])) := by
  constructor
  · intro rp cycles
    rw [runSession_fst]
    simp
  · intro rp st
    rfl

/-- C2: once a session is stopped by a stop signal or a disconnect, no
further measurement events are ever emitted for it, whatever signals
(including any number of start signals) arrive afterwards: stopped is
terminal. -/
theorem C2_stopped_is_terminal :
    (∀ pre post : List Signal,
      (runLoop (runLoop initLoop (pre ++ [Signal.stop])).1 post).2 = 0) ∧
    (∀ pre post : List Signal,
      (runLoop (runLoop initLoop (pre ++ [Signal.disconnect])).1 post).2 = 0) := by
  constructor <;> intro pre post
  · refine (runLoop_closed post _ ?_).1
    rw [runLoop_append_fst]
    exact runLoop_stop_closed _
  · refine (runLoop_closed post _ ?_).1
    rw [runLoop_append_fst]
    exact runLoop_disconnect_closed _

/-- C3 counterexample: five successful cycles of emission 0 bring the
successful-cycle counter to 5 (a multiple of 5), yet no combined esgUpdate
event is pushed, because the code additionally requires a strictly
positive accumulated emission. -/
theorem C3_counterexample :
    (runSession 30 ⟨0, 0⟩ (List.replicate 5 (some (0:ℚ)))).1.sampleCount = 5 ∧
    (runSession 30 ⟨0, 0⟩ (List.replicate 5 (some (0:ℚ)))).2.filter isEsgUpdate = [] := by
  norm_num [List.replicate, runSession, measureOnce, isEsgUpdate, List.filter]

/-- C3 amended: on a successful cycle the combined esgUpdate — carrying the
CompositeScore and FinancialImpact recomputed from the session's
accumulated emission (converted to tons with a 0.001 floor) — is pushed
exactly when the new successful-cycle counter is a multiple of 5 AND the
accumulated emission is strictly positive; the measurement event itself is
always pushed. -/
theorem C3_update_cadence : ∀ (rp : ℚ) (st : SessState) (q : ℚ),
    ((measureOnce rp st (some q)).2.filter isEsgUpdate =
      if (st.sampleCount + 1) % 5 = 0 ∧ 0 < st.carbonAccumulator + q then
        [SessOut.esgUpdate
          (calculateESGScore (esgMetricsOf rp
            (max (1/1000) ((st.carbonAccumulator + q) / 1000000))))
          (calculateFinancialImpact
            ((calculateESGScore (esgMetricsOf rp
              (max (1/1000) ((st.carbonAccumulator + q) / 1000000)))).overall : ℚ)
            sessionRevenue (max (1/1000) ((st.carbonAccumulator + q) / 1000000)))
          (st.carbonAccumulator + q)]
      else []) ∧
    SessOut.measurement q ∈ (measureOnce rp st (some q)).2 := by
  intro rp st q
  unfold measureOnce
  dsimp only
  constructor
  · split
    · simp [isEsgUpdate, List.filter]
    · simp [isEsgUpdate, List.filter]
  · split <;> simp

/-- C4: calculateFinancialImpact returns exactly the documented formulas
(premium, adjusted revenue, valuation multiple, enterprise value, carbon
cost, potential savings, adjusted return), and at revenue 1,000,000 and
overall 73 the premium is 10.95 percent, the adjusted revenue 1,109,500,
the valuation multiple 11.46 and the enterprise value 12,714,870
exactly. -/
theorem C4_financial_impact_formulas :
    (∀ s r e : ℚ,
      (calculateFinancialImpact s r e).esgPremium = s / 100 * (15/100) * 100 ∧
      (calculateFinancialImpact s r e).adjustedRevenue = r * (1 + s / 100 * (15/100)) ∧
      (calculateFinancialImpact s r e).valuationMultiple = 10 + s / 100 * 2 ∧
      (calculateFinancialImpact s r e).enterpriseValue =
        r * (1 + s / 100 * (15/100)) * (10 + s / 100 * 2) ∧
      (calculateFinancialImpact s r e).carbonCost = e * 50 ∧
      (calculateFinancialImpact s r e).potentialSavings = e * 50 * (3/10) ∧
      (calculateFinancialImpact s r e).adjustedReturn = (8/100 + s / 100 * (3/100)) * 100) ∧
    (calculateFinancialImpact 73 1000000 100).esgPremium = 1095/100 ∧
    (calculateFinancialImpact 73 1000000 100).adjustedRevenue = 1109500 ∧
    (calculateFinancialImpact 73 1000000 100).valuationMultiple = 1146/100 ∧
    (calculateFinancialImpact 73 1000000 100).enterpriseValue = 12714870 := by
  refine ⟨fun s r e => ⟨rfl, rfl, rfl, rfl, rfl, rfl, rfl⟩, ?_, ?_, ?_, ?_⟩ <;>
    norm_num [calculateFinancialImpact]

/-- C5 counterexample: with every metrics field at 0 the overall score is
15, not 0 — the carbon sub-score has a baseline of 15 at zero footprint. -/
theorem C5_counterexample :
    (calculateESGScore zeroMetrics).overall ≠ 0 ∧
    (calculateESGScore zeroMetrics).overall = 15 := by
  norm_num [calculateESGScore, zeroMetrics, mathRound, totalScore, environmentalScore,
    socialScore, governanceScore, carbonScore, renewableScore, wasteScore, employeeScore,
    diversityScore, communityScore, boardScore, transparencyScore, ethicsScore]

/-- C5 amended: all metrics fields at 0 give overall 15 (the carbon
sub-score is max(0, 15 - footprint/100) = 15 at footprint 0); all fields
at 100 give overall 99 (the carbon sub-score drops to 14 at footprint
100). -/
theorem C5_boundary_scores :
    (calculateESGScore zeroMetrics).overall = 15 ∧
    (calculateESGScore fullMetrics).overall = 99 := by
  constructor <;>
    norm_num [calculateESGScore, zeroMetrics, fullMetrics, mathRound, totalScore,
      environmentalScore, socialScore, governanceScore, carbonScore, renewableScore,
      wasteScore, employeeScore, diversityScore, communityScore, boardScore,
      transparencyScore, ethicsScore]

/-- C6 counterexample: calculateFinancialImpact does not reject negative
inputs — called with a negative score, revenue and emissions figure it
returns a result with a negative premium and a negative carbon cost
instead of raising. -/
theorem C6_counterexample :
    (calculateFinancialImpact (-100) (-1) (-10)).esgPremium = -15 ∧
    (calculateFinancialImpact (-100) (-1) (-10)).carbonCost = -500 ∧
    (calculateFinancialImpact (-100) (-1) (-10)).adjustedReturn = 5 := by
  norm_num [calculateFinancialImpact]

/-- C6 amended: calculateFinancialImpact performs no input validation; it
is a deterministic total function, and on negative inputs it applies the
same formulas unconditionally instead of rejecting the call. -/
theorem C6_no_input_validation : ∀ s r e : ℚ, s < 0 ∨ r < 0 ∨ e < 0 →
    (calculateFinancialImpact s r e).esgPremium = s / 100 * (15/100) * 100 ∧
    (calculateFinancialImpact s r e).adjustedRevenue = r * (1 + s / 100 * (15/100)) ∧
    (calculateFinancialImpact s r e).carbonCost = e * 50 := by
  intro s r e _
  exact ⟨rfl, rfl, rfl⟩

/-- Witness for C6 amended at score -1, revenue 1, emissions 1. -/
theorem C6_no_input_validation_witness :
    ((-1 : ℚ) < 0 ∨ (1 : ℚ) < 0 ∨ (1 : ℚ) < 0) ∧
    ((calculateFinancialImpact (-1) 1 1).esgPremium = (-1) / 100 * (15/100) * 100 ∧
     (calculateFinancialImpact (-1) 1 1).adjustedRevenue = 1 * (1 + (-1) / 100 * (15/100)) ∧
     (calculateFinancialImpact (-1) 1 1).carbonCost = 1 * 50) :=
  ⟨Or.inl (by norm_num), C6_no_input_validation (-1) 1 1 (Or.inl (by norm_num))⟩

/-- C7: the recomputed threat level is exactly the spec's ladder applied to
the count of high-or-critical events among the most recent 50 log entries:
0 gives low, 1-2 medium, 3-5 high, more than 5 critical. -/
theorem C7_threat_level_ladder : ∀ events : List SEvent,
    updateThreatLevel events =
      specThreatLadder ((lastN 50 events).filter isHighSeverity).length := by
  intro events
  simp only [updateThreatLevel, specThreatLadder]
  split_ifs <;> first | rfl | omega

/-- C10: each displayed normalized pillar sub-score equals its pillar cap
(environmental 40, social 30, governance 30) whenever the pillar's raw
total is nonzero, and equals 0 when the raw total is 0. -/
theorem C10_pillar_display_degenerate : ∀ m : MetricsVector,
    ((calculateESGScore m).environmental = if environmentalScore m = 0 then 0 else 40) ∧
    ((calculateESGScore m).social = if socialScore m = 0 then 0 else 30) ∧
    ((calculateESGScore m).governance = if governanceScore m = 0 then 0 else 30) := by
  intro m
  refine ⟨?_, ?_, ?_⟩
  · by_cases h : environmentalScore m = 0
    · simp only [calculateESGScore, if_pos h, h]
      norm_num [mathRound]
    · simp only [calculateESGScore, if_neg h]
      rw [mul_comm, div_mul_cancel₀ _ h]
      norm_num [mathRound]
  · by_cases h : socialScore m = 0
    · simp only [calculateESGScore, if_pos h, h]
      norm_num [mathRound]
    · simp only [calculateESGScore, if_neg h]
      rw [mul_comm, div_mul_cancel₀ _ h]
      norm_num [mathRound]
  · by_cases h : governanceScore m = 0
    · simp only [calculateESGScore, if_pos h, h]
      norm_num [mathRound]
    · simp only [calculateESGScore, if_neg h]
      rw [mul_comm, div_mul_cancel₀ _ h]
      norm_num [mathRound]

/-- Taking the last n entries of a list no longer than n is the identity. -/
theorem lastN_of_le {α : Type} (n : Nat) (l : List α) (h : l.length ≤ n) :
    lastN n l = l := by
  simp [lastN, Nat.sub_eq_zero_of_le h]

/-- Dropping the head of an over-capacity segment does not change its last
maxEvents entries. -/
theorem lastN_drop_one {α : Type} (l rest : List α) (h : maxEvents + 1 ≤ l.length) :
    lastN maxEvents (l.drop 1 ++ rest) = lastN maxEvents (l ++ rest) := by
  have h1 : (l ++ rest).drop 1 = l.drop 1 ++ rest :=
    List.drop_append_of_le_length (by omega)
  have h2 : 1 + (((l ++ rest).drop 1).length - maxEvents) = (l ++ rest).length - maxEvents := by
    simp only [List.length_append, List.length_drop]
    omega
  unfold lastN
  rw [← h1, List.drop_drop, h2]

/-- Unfolding of the log update performed by logEvent: push, then evict the
oldest entry when over capacity. -/
theorem logEvent_events (m : SecurityMonitor) (t : String) (s : Severity)
    (ts : Nat) (d : String) :
    (logEvent m t s ts d).securityEvents =
      if (m.securityEvents ++ [mkEvent m t s ts d]).length > maxEvents then
        (m.securityEvents ++ [mkEvent m t s ts d]).drop 1
      else m.securityEvents ++ [mkEvent m t s ts d] := rfl

/-- logEvent grows the log by one entry up to the capacity. -/
theorem logEvent_len (m : SecurityMonitor) (t : String) (s : Severity)
    (ts : Nat) (d : String) (h : m.securityEvents.length ≤ maxEvents) :
    (logEvent m t s ts d).securityEvents.length =
      min (m.securityEvents.length + 1) maxEvents := by
  rw [logEvent_events]
  split
  all_goals simp_all
  all_goals omega

/-- One record is constructed per logEvent call. -/
theorem loggedRecords_length : ∀ (rs : List LogReq) (m : SecurityMonitor),
    (loggedRecords m rs).length = rs.length := by
  intro rs
  induction rs with
  | nil => intro m; rfl
  | cons r rs ih => intro m; simp [loggedRecords, ih]

/-- Log length after a sequence of logEvent calls. -/
theorem logMany_len : ∀ (rs : List LogReq) (m : SecurityMonitor),
    m.securityEvents.length ≤ maxEvents →
    (logMany m rs).securityEvents.length =
      min (m.securityEvents.length + rs.length) maxEvents := by
  intro rs
  induction rs with
  | nil => intro m h; simp [logMany]; omega
  | cons r rs ih =>
    intro m h
    have h2 := logEvent_len m r.type r.severity r.ts r.details h
    rw [logMany, ih _ (by omega), h2]
    simp only [List.length_cons]
    omega

/-- Ring-buffer retention: after any sequence of logEvent calls the log is
exactly the most recent maxEvents entries of the full appended sequence,
in order. -/
theorem logMany_lastN : ∀ (rs : List LogReq) (m : SecurityMonitor),
    m.securityEvents.length ≤ maxEvents →
    (logMany m rs).securityEvents =
      lastN maxEvents (m.securityEvents ++ loggedRecords m rs) := by
  intro rs
  induction rs with
  | nil =>
    intro m h
    simp [logMany, loggedRecords, lastN_of_le _ _ h]
  | cons r rs ih =>
    intro m h
    have h2 := logEvent_len m r.type r.severity r.ts r.details h
    rw [logMany, loggedRecords, ih _ (by omega)]
    rw [logEvent_events]
    split
    case isTrue hgt =>
      rw [lastN_drop_one _ _
        (by simp only [List.length_append, List.length_singleton] at hgt ⊢; omega)]
      simp [List.append_assoc]
    case isFalse hle =>
      simp [List.append_assoc]

/-- C8: from any reachable monitor state (log within capacity), logging
capacity+1 events leaves exactly capacity events in the log, the log being
the most recent capacity entries of the appended sequence in original
order — here exactly the last capacity of the capacity+1 new records. -/
theorem C8_ring_buffer_eviction : ∀ (m : SecurityMonitor) (rs : List LogReq),
    m.securityEvents.length ≤ maxEvents → rs.length = maxEvents + 1 →
    (logMany m rs).securityEvents.length = maxEvents ∧
    (logMany m rs).securityEvents =
      lastN maxEvents (m.securityEvents ++ loggedRecords m rs) ∧
    (logMany m rs).securityEvents = (loggedRecords m rs).drop 1 := by
  intro m rs h1 h2
  have hl := logMany_len rs m h1
  have he := logMany_lastN rs m h1
  refine ⟨by rw [hl]; omega, he, ?_⟩
  rw [he]
  have hb : (loggedRecords m rs).length = maxEvents + 1 := by
    rw [loggedRecords_length]; exact h2
  have hn : (m.securityEvents ++ loggedRecords m rs).length - maxEvents =
      m.securityEvents.length + 1 := by
    simp only [List.length_append, hb]; omega
  unfold lastN
  rw [hn, List.drop_append_eq_append_drop,
    List.drop_eq_nil_of_le (by omega), List.nil_append]
  have hi : m.securityEvents.length + 1 - m.securityEvents.length = 1 := by omega
  rw [hi]

/-- Witness for C8 on a fresh monitor and 1001 identical log calls. -/
theorem C8_ring_buffer_eviction_witness :
    (logMany initMonitor (List.replicate (maxEvents + 1) stdReq)).securityEvents.length =
      maxEvents ∧
    (logMany initMonitor (List.replicate (maxEvents + 1) stdReq)).securityEvents =
      lastN maxEvents (initMonitor.securityEvents ++
        loggedRecords initMonitor (List.replicate (maxEvents + 1) stdReq)) ∧
    (logMany initMonitor (List.replicate (maxEvents + 1) stdReq)).securityEvents =
      (loggedRecords initMonitor (List.replicate (maxEvents + 1) stdReq)).drop 1 :=
  C8_ring_buffer_eviction initMonitor (List.replicate (maxEvents + 1) stdReq)
    (by simp [initMonitor]) (by simp)

/-- Splitting a sequence of logEvent calls. -/
theorem logMany_append : ∀ (rs1 rs2 : List LogReq) (m : SecurityMonitor),
    logMany m (rs1 ++ rs2) = logMany (logMany m rs1) rs2 := by
  intro rs1
  induction rs1 with
  | nil => intro rs2 m; rfl
  | cons r rs ih => intro rs2 m; simp [logMany, ih]

/-- One more identical log call on the fresh-run monitor. -/
theorem logN_succ (n : ℕ) : logN (n + 1) =
    logEvent (logN n) stdReq.type stdReq.severity stdReq.ts stdReq.details := by
  rw [logN, List.replicate_succ', logMany_append]
  rfl

/-- Log length after n calls on a fresh monitor. -/
theorem logN_len (n : ℕ) : (logN n).securityEvents.length = min n maxEvents := by
  have h := logMany_len (List.replicate n stdReq) initMonitor (by simp [initMonitor])
  simpa [logN, initMonitor] using h

/-- After exactly maxEvents calls the log is full. -/
theorem logN_1000_len : (logN 1000).securityEvents.length = maxEvents := by
  rw [logN_len]
  norm_num [maxEvents]

/-- A logEvent call on a full log evicts the oldest entry and appends the
new record. -/
theorem logEvent_full (m : SecurityMonitor) (t : String) (s : Severity)
    (ts : Nat) (d : String) (h : m.securityEvents.length = maxEvents) :
    (logEvent m t s ts d).securityEvents =
      m.securityEvents.drop 1 ++ [mkEvent m t s ts d] := by
  rw [logEvent_events, if_pos (by simp [h])]
  exact List.drop_append_of_le_length (by simp [h, maxEvents])

/-- Below capacity the assigned sequence ids on a fresh monitor are
exactly 1, 2, ..., n. -/
theorem logN_ids : ∀ n : ℕ, n ≤ maxEvents →
    (logN n).securityEvents.map SEvent.id = List.range' 1 n := by
  intro n
  induction n with
  | zero => intro _; rfl
  | succ n ih =>
    intro h
    have hlen : (logN n).securityEvents.length = n := by
      rw [logN_len]; omega
    have hids := ih (by omega)
    rw [logN_succ, logEvent_events]
    have hcond : ¬ ((logN n).securityEvents ++
        [mkEvent (logN n) stdReq.type stdReq.severity stdReq.ts stdReq.details]).length >
          maxEvents := by
      simp only [List.length_append, List.length_singleton, hlen]
      omega
    rw [if_neg hcond, List.map_append, hids, List.range'_concat]
    simp [mkEvent, hlen]
    omega

/-- After 1001 calls the log is still full. -/
theorem logN_1001_len : (logN 1001).securityEvents.length = maxEvents := by
  rw [logN_len]
  norm_num [maxEvents]

/-- Ids in the log after 1001 calls: 2..1000 followed by 1001. -/
theorem logN_1001_ids :
    (logN 1001).securityEvents.map SEvent.id = List.range' 2 999 ++ [1001] := by
  have e1 : (1001 : ℕ) = 1000 + 1 := by norm_num
  rw [e1, logN_succ, logEvent_full _ _ _ _ _ logN_1000_len, List.map_append, List.map_drop,
    logN_ids 1000 (by norm_num [maxEvents])]
  have hr : List.range' 1 1000 = 1 :: List.range' 2 999 := by
    rw [show (1000 : ℕ) = 999 + 1 from by norm_num, List.range'_succ]
  rw [hr]
  simp [mkEvent, logN_1000_len, maxEvents]

/-- Ids in the log after 1002 calls: 3..1000 followed by 1001 twice. -/
theorem logN_1002_ids :
    (logN 1002).securityEvents.map SEvent.id = List.range' 3 998 ++ [1001, 1001] := by
  have e1 : (1002 : ℕ) = 1001 + 1 := by norm_num
  rw [e1, logN_succ, logEvent_full _ _ _ _ _ logN_1001_len, List.map_append, List.map_drop,
    logN_1001_ids]
  rw [List.drop_append_of_le_length (by simp)]
  have hr : List.range' 2 999 = 2 :: List.range' 3 998 := by
    rw [show (999 : ℕ) = 998 + 1 from by norm_num, List.range'_succ]
  rw [hr]
  simp [mkEvent, logN_1001_len, maxEvents]

/-- C9 counterexample: after 1002 logEvent calls on one fresh monitor the
retained id sequence is 3..1000, 1001, 1001 — the last two events were
logged one after the other yet carry the same id 1001, so the id of a
later event is not strictly larger once eviction has begun, and the id
sequence in the log is not strictly increasing. -/
theorem C9_counterexample :
    (logN 1002).securityEvents.map SEvent.id = List.range' 3 998 ++ [1001, 1001] ∧
    ¬ List.Chain' (fun a b => a < b) ((logN 1002).securityEvents.map SEvent.id) := by
  refine ⟨logN_1002_ids, ?_⟩
  rw [logN_1002_ids]
  intro hch
  rw [List.chain'_append] at hch
  have h2 := hch.2.1
  simp [List.chain'_cons] at h2

/-- C9 amended: sequence ids are strictly increasing (1, 2, ..., n) only
while the log is below capacity; once the log is full every newly logged
event receives id maxEvents + 1 = 1001 (the id is the current log length
plus one, and the length is pinned at capacity), so later events can share
an id with earlier ones. -/
theorem C9_sequence_id_monotonic_until_full :
    (∀ n : ℕ, n ≤ maxEvents →
      (logN n).securityEvents.map SEvent.id = List.range' 1 n) ∧
    (∀ (m : SecurityMonitor) (t : String) (s : Severity) (ts : Nat) (d : String),
      m.securityEvents.length = maxEvents →
      ((logEvent m t s ts d).securityEvents.map SEvent.id).getLast? =
        some (maxEvents + 1)) := by
  constructor
  · exact logN_ids
  · intro m t s ts d h
    rw [logEvent_full m t s ts d h, List.map_append]
    simp [mkEvent, h]

/-- Witness for C9 amended: the id list after two calls, and the id
assigned by a call on the full log reached after 1000 calls. -/
theorem C9_sequence_id_monotonic_until_full_witness :
    ((logN 2).securityEvents.map SEvent.id = List.range' 1 2) ∧
    (((logEvent (logN 1000) "connection" Severity.low 0 "").securityEvents.map
        SEvent.id).getLast? = some (maxEvents + 1)) :=
  ⟨C9_sequence_id_monotonic_until_full.1 2 (by norm_num [maxEvents]),
   C9_sequence_id_monotonic_until_full.2 (logN 1000) "connection" Severity.low 0 ""
     logN_1000_len⟩
